import Mathlib

/-!
Verification development for the hybrid two-tier intent-classification engine
(`intent_classification.py`): the TF-IDF fast classifier
(`SemanticRouteClassifier`), the decision logic shared with the BERT slow
classifier (`BERTIntentClassifier.classify`, post-similarity part), and the
`HybridIntentClassifier` coordinator with its rule guards and lazy slow-path
loading.

Modelling conventions:
* Python floats are modelled as real numbers (`ℝ`); the purely rational
  sub-scores (pattern / keyword / phrase / n-gram) are modelled in `ℚ` and
  cast into `ℝ` where the ensemble combines them.
* Python's `re.search` on the handful of concrete patterns used by the route
  catalog is modelled by a small total matcher-combinator language (`Pat`);
  each source regex is transcribed into a combinator term.  Inputs are
  assumed ASCII (so `\w` is `[a-zA-Z0-9_]`).
* The slow classifier's sentence-embedding model is opaque (network weights);
  it is abstracted as a function parameter.  Its *decision* logic
  (word gates and demotions, lines 841-885) is embedded exactly.
* Dictionaries keyed by the vocabulary are modelled as functions
  `String → ℝ` supported on the vocabulary; the integer slot order of the
  Python vocabulary dict is irrelevant to every vector operation used.
-/

/-! ## Basic string machinery (Python `str` helpers used by the classifier) -/

/-- Python's apostrophe character, kept out of string literals. -/
def apos : Char := Char.ofNat 39

/-- One-character string holding an apostrophe. -/
def apS : String := String.mk [apos]

/-- Python `\s` (ASCII): space, tab, newline, carriage return, vertical tab,
form feed. -/
def isSpaceChar (c : Char) : Bool :=
  c = ' ' || c = '\t' || c = '\n' || c = '\r' || c = '\x0b' || c = '\x0c'

/-- Python `\w` (ASCII): letters, digits, underscore. -/
def isWordChar (c : Char) : Bool := c.isAlpha || c.isDigit || c = '_'

/-- Python `str.lower` (ASCII). -/
def lowerStr (s : String) : String := String.mk (s.data.map Char.toLower)

/-- Python `str.strip()`. -/
def trimStr (s : String) : String :=
  String.mk (((s.data.dropWhile isSpaceChar).reverse.dropWhile isSpaceChar).reverse)

/-- `re.sub(r'\s+', ' ', ·)`: collapse every whitespace run to one space.
The boolean records whether the previous character was part of a run. -/
def collapseWsAux : Bool → List Char → List Char
  | _, [] => []
  | prevSpace, c :: rest =>
    if isSpaceChar c then
      if prevSpace then collapseWsAux true rest
      else ' ' :: collapseWsAux true rest
    else c :: collapseWsAux false rest

/-- Python `str.split()` (split on whitespace runs, drop empty pieces);
the accumulator holds the current word reversed. -/
def splitWsAux : List Char → List Char → List String
  | acc, [] => if acc.isEmpty then [] else [String.mk acc.reverse]
  | acc, c :: rest =>
    if isSpaceChar c then
      if acc.isEmpty then splitWsAux [] rest
      else String.mk acc.reverse :: splitWsAux [] rest
    else splitWsAux (c :: acc) rest

/-- `re.sub(r'[^\w\s]', ' ', ·)` applied character-wise. -/
def substNonWord (c : Char) : Char :=
  if isWordChar c || isSpaceChar c then c else ' '

/-- `SemanticRouteClassifier._tokenize`: lowercase, replace non-word
characters by spaces, split on whitespace, drop tokens of length ≤ 1. -/
def tokenize (t : String) : List String :=
  (splitWsAux [] ((lowerStr t).data.map substNonWord)).filter (fun w => 1 < w.length)

/-- Python's `needle in hay` on strings. -/
def containsSub (needle hay : String) : Bool :=
  (List.range (hay.data.length + 1)).any (fun i => needle.data.isPrefixOf (hay.data.drop i))

/-- `SemanticRouteClassifier._preprocess_text`: lowercase, strip, collapse
whitespace runs. -/
def preprocessText (q : String) : String :=
  String.mk (collapseWsAux false (trimStr (lowerStr q)).data)

/-- The hybrid coordinator's normalization of a query before the exact
close-phrase lookup: `re.sub(r'[^\w\s]', '', query.strip().lower()).strip()`
followed by whitespace collapsing. -/
def normalizeQuery (q : String) : String :=
  String.mk (collapseWsAux false
    (trimStr (String.mk ((lowerStr (trimStr q)).data.filter
      (fun c => isWordChar c || isSpaceChar c)))).data)

/-- `SemanticRouteClassifier._get_ngrams` with `n = 2`: space-joined
adjacent token pairs. -/
def getBigrams (t : String) : List String :=
  let ws := tokenize t
  (ws.zip ws.tail).map (fun p => p.1 ++ " " ++ p.2)

/-! ## A total matcher language for the catalog's regular expressions

A matcher takes the full text (needed for word-boundary lookback) and a
start position, and returns the list of possible end positions.  This is
enough to express every pattern in the route catalog: literals,
alternation, optional groups, `\s+`/`\s*`, `\w{2,4}`, `\b`, `^` and `$`.
`re.search` semantics is existence of a match at some start position. -/

abbrev Pat := List Char → Nat → List Nat

/-- Empty pattern (matches nothing, consuming nothing). -/
def pEps : Pat := fun _ i => [i]

/-- Literal string. -/
def pLit (s : String) : Pat := fun t i =>
  if s.data.isPrefixOf (t.drop i) then [i + s.data.length] else []

/-- Sequencing. -/
def pSeq (p q : Pat) : Pat := fun t i => ((p t i).flatMap (q t)).dedup

/-- Sequence a list of patterns. -/
def pCat (ps : List Pat) : Pat := ps.foldl pSeq pEps

/-- Alternation over a list of patterns. -/
def pAlt (ps : List Pat) : Pat := fun t i => (ps.flatMap (fun p => p t i)).dedup

/-- Alternation over literal words. -/
def pLits (ws : List String) : Pat := pAlt (ws.map pLit)

/-- Optional pattern (`?`). -/
def pOpt (p : Pat) : Pat := fun t i => (i :: p t i).dedup

/-- Length of the run of characters satisfying `f` starting at `i`. -/
def runLen (f : Char → Bool) (t : List Char) (i : Nat) : Nat :=
  ((t.drop i).takeWhile f).length

/-- One-or-more characters of a class (`\s+` etc.). -/
def pClsPlus (f : Char → Bool) : Pat := fun t i =>
  (List.range (runLen f t i)).map (fun k => i + k + 1)

/-- Zero-or-more characters of a class (`\s*` etc.). -/
def pClsStar (f : Char → Bool) : Pat := fun t i =>
  i :: (List.range (runLen f t i)).map (fun k => i + k + 1)

/-- Bounded repetition of a character class (`\w{lo,hi}`). -/
def pClsRep (f : Char → Bool) (lo hi : Nat) : Pat := fun t i =>
  ((List.range (min (runLen f t i) hi + 1)).filter (fun k => lo ≤ k)).map (fun k => i + k)

/-- `\b`: word boundary (zero-width). -/
def pBnd : Pat := fun t i =>
  let before := decide (0 < i) && isWordChar (t.getD (i - 1) ' ')
  let after := decide (i < t.length) && isWordChar (t.getD i ' ')
  if before != after then [i] else []

/-- `^` (no MULTILINE flag: start of string only). -/
def pBol : Pat := fun _ i => if i = 0 then [i] else []

/-- `$` (inputs contain no newline). -/
def pEol : Pat := fun t i => if i = t.length then [i] else []

/-- `\s+`. -/
def pWs : Pat := pClsPlus isSpaceChar

/-- `\s*`. -/
def pWsStar : Pat := pClsStar isSpaceChar

/-- `re.search(pattern, text)` viewed as a Boolean. -/
def searchPat (p : Pat) (s : String) : Bool :=
  (List.range (s.data.length + 1)).any (fun i => !(p s.data i).isEmpty)

/-! ## The route catalog (`SemanticRouteClassifier._initialize_routes`) -/

/-- The six intents of the classifier. -/
inductive RouteName
  | greeting
  | agent_request
  | scheduler
  | conversation_close
  | abusive
  | normal_qa
deriving DecidableEq, Repr

/-- A route: example utterances, compiled regex patterns, keywords and
phrase lists (`Route` dataclass). -/
structure Route where
  name : RouteName
  examples : List String
  patterns : List Pat
  keywords : List String
  phrasePatterns : List String

/-- The `greeting` route. -/
def greetingRoute : Route where
  name := RouteName.greeting
  examples := [
    "hello", "hi", "hey", "good morning", "good afternoon",
    "good evening", "greetings", "howdy", "hi there",
    "hello there", "hey there", "what" ++ apS ++ "s up", "whats up",
    "how are you", "how are you doing", "how do you do",
    "nice to meet you", "pleased to meet you", "yo",
    "hiya", "good day", "salutations", "how" ++ apS ++ "s it going"]
  patterns := [
    pCat [pBol, pLits ["hi", "hello", "hey", "greetings", "howdy", "yo", "hiya"], pBnd],
    pCat [pBnd, pLit "good", pWs, pLits ["morning", "afternoon", "evening", "day"], pBnd],
    pCat [pBnd, pAlt [
        pCat [pLit "what", pOpt (pLit apS), pOpt (pLit "s"), pWs, pLit "up"],
        pCat [pLit "how", pWs, pLit "are", pWs, pLit "you"],
        pCat [pLit "how", pWs, pLit "do", pWs, pLit "you", pWs, pLit "do"]], pBnd],
    pCat [pBol, pLits ["nice", "pleased"], pWs, pLit "to", pWs, pLit "meet", pWs, pLit "you"],
    pCat [pBnd, pLit "how", pOpt (pLit apS), pLit "s", pWs, pLit "it", pWs, pLit "going", pBnd],
    pCat [pBol, pClsRep isWordChar 2 4, pEol]]
  keywords := ["hi", "hello", "hey", "greetings", "morning", "afternoon", "evening", "howdy", "yo"]
  phrasePatterns := ["how are you", "good morning", "good afternoon", "good evening",
    "whats up", "what" ++ apS ++ "s up"]

/-- The `agent_request` route. -/
def agentRequestRoute : Route where
  name := RouteName.agent_request
  examples := [
    "I need to speak to an agent", "connect me with a representative",
    "transfer me to a human", "I want to talk to someone",
    "can I speak with an agent", "get me a real person",
    "I need human assistance", "connect me to support",
    "speak to customer service", "talk to a representative",
    "escalate to agent", "I need a human", "transfer to agent",
    "let me talk to someone real", "I want human help",
    "can I talk to a person", "live agent please",
    "human support needed", "switch to human", "real person please",
    "operator please", "I need to speak with someone",
    "connect me to a person", "talk to customer service",
    "i want to talk to sales", "i want call from sales",
    "i want to talk sales team", "i want to talk sales",
    "talk to sales", "talk to sales team"]
  patterns := [
    pCat [pBnd, pLits ["speak", "talk", "connect", "transfer", "escalate"], pWs,
      pAlt [pLit "to", pLit "with", pCat [pLit "me", pWs, pLits ["to", "with"]]], pWs,
      pOpt (pCat [pLit "a", pOpt (pLit "n"), pWs]),
      pLits ["agent", "human", "representative", "someone", "person", "operator"], pBnd],
    pCat [pBnd, pLits ["need", "want", "require"], pWs, pOpt (pLits ["a", "an", "the"]), pWsStar,
      pAlt [pLit "agent", pLit "human", pLit "representative",
        pCat [pLit "real", pWs, pLit "person"], pLit "operator"], pBnd],
    pCat [pBnd, pLits ["need", "want"], pWs, pLit "to", pWs, pLits ["speak", "talk"], pWs,
      pLits ["to", "with"], pWs, pOpt (pCat [pLit "a", pOpt (pLit "n"), pWs]),
      pLits ["agent", "human", "representative", "someone", "operator"], pBnd],
    pCat [pBnd, pLits ["get", "give"], pWs, pLit "me", pWs, pLits ["a", "an", "to"], pWs,
      pAlt [pLit "human", pLit "agent", pLit "representative",
        pCat [pLit "real", pWs, pLit "person"]], pBnd],
    pCat [pBnd, pAlt [pCat [pLit "customer", pWs, pLit "service"], pLit "support", pLit "live"],
      pWs, pLits ["agent", "representative", "person"], pBnd],
    pCat [pBnd, pAlt [pLit "human", pCat [pLit "real", pWs, pLit "person"], pLit "operator"],
      pWs, pLits ["please", "now", "needed", "support"], pBnd],
    pCat [pBnd, pLit "switch", pWs, pLit "to", pWs, pOpt (pCat [pLit "a", pWs]),
      pLits ["human", "agent", "person"], pBnd],
    pCat [pBnd, pLit "let", pWs, pLit "me", pWs, pLits ["talk", "speak"], pWs, pLit "to", pWs,
      pOpt (pCat [pLit "a", pWs]), pLits ["human", "agent", "person", "someone"], pBnd],
    pCat [pBnd, pLits ["talk", "speak"], pWs, pLit "to", pWs,
      pAlt [pLit "sales", pLit "salesperson", pCat [pLit "sales", pWs, pLit "team"]], pBnd],
    pCat [pBnd, pLits ["need", "want"], pWs, pOpt (pCat [pLit "to", pWs]),
      pLits ["talk", "speak"], pWs, pOpt (pCat [pLit "to", pWs]),
      pAlt [pLit "sales", pLit "salesperson", pCat [pLit "sales", pWs, pLit "team"]], pBnd]]
  keywords := ["agent", "human", "representative", "transfer", "connect", "speak", "escalate",
    "operator", "live agent", "customer service", "real person",
    "sales", "salesperson", "sales team"]
  phrasePatterns := ["speak to agent", "talk to human", "connect me", "transfer me",
    "real person", "human help", "customer service", "live agent",
    "need agent", "want agent", "need human", "talk to agent",
    "talk to sales", "talk to sales team", "call from sales"]

/-- The `scheduler` route. -/
def schedulerRoute : Route where
  name := RouteName.scheduler
  examples := [
    "I want to book an appointment", "schedule a meeting",
    "can I make an appointment", "book a consultation",
    "I need to schedule something", "set up an appointment",
    "arrange a meeting", "I want to reserve a time slot",
    "schedule an appointment for next week", "book me for tomorrow",
    "I need to see a doctor", "make a reservation",
    "I" ++ apS ++ "d like to schedule a visit", "can I get an appointment",
    "set up a meeting time", "reserve a time", "book a session",
    "schedule a call", "arrange an appointment", "when can I come in",
    "make an appointment", "schedule me in",
    "i want to schedule my meeting", "i want to schedule a meeting",
    "want to schedule meeting", "schedule my meeting", "book my appointment"]
  patterns := [
    pCat [pBnd, pAlt [pLit "want", pLit "need", pLit "like", pCat [pLit "would", pWs, pLit "like"]],
      pWs, pOpt (pCat [pLit "to", pWs]),
      pAlt [pLit "schedule", pLit "book", pLit "arrange", pCat [pLit "set", pWs, pLit "up"]],
      pWs, pOpt (pLits ["my", "a", "an", "the"]), pWsStar,
      pLits ["meeting", "appointment", "call", "session"], pBnd],
    pCat [pBnd, pAlt [pLit "book", pLit "schedule", pLit "make", pCat [pLit "set", pWs, pLit "up"],
        pLit "arrange", pLit "reserve"], pWs,
      pOpt (pAlt [pCat [pLit "a", pOpt (pLit "n"), pWs], pCat [pLit "my", pWs],
        pCat [pLit "the", pWs]]),
      pLits ["appointment", "meeting", "consultation", "visit", "session", "call"], pBnd],
    pCat [pBnd, pLits ["appointment", "meeting", "consultation", "visit", "session"], pWs,
      pLits ["booking", "scheduling", "slot"], pBnd],
    pCat [pBnd, pLit "come", pWs, pLit "in", pWs,
      pAlt [pLit "for", pCat [pLit "to", pWs, pLit "see"]], pBnd],
    pCat [pBnd, pLits ["get", "have"], pWs, pLit "a", pOpt (pLit "n"), pWs,
      pLit "appointment", pBnd],
    pCat [pBnd, pLit "availability", pWs, pLits ["for", "to"], pBnd],
    pCat [pBnd, pLit "schedule", pWs, pLit "me", pWs, pLits ["in", "for"], pBnd],
    pCat [pBnd, pLit "schedule", pWs, pOpt (pLits ["my", "a", "an", "the"]), pWsStar,
      pLits ["meeting", "appointment", "call", "session"], pBnd],
    pCat [pBnd, pLit "book", pWs, pOpt (pLits ["my", "a", "an", "the"]), pWsStar,
      pLits ["meeting", "appointment", "call", "session"], pBnd]]
  keywords := ["appointment", "schedule", "book", "meeting", "consultation", "visit",
    "reservation", "calendar", "time slot", "reserve", "arrange", "session", "availability", "call"]
  phrasePatterns := ["book appointment", "schedule meeting", "make appointment", "set up meeting",
    "reserve time", "book session", "schedule visit", "appointment slot",
    "want to schedule", "need to schedule", "schedule my", "book my"]

/-- The `conversation_close` route. -/
def conversationCloseRoute : Route where
  name := RouteName.conversation_close
  examples := [
    "no", "nope", "no thanks", "no thank you",
    "nothing", "nothing else", "no i am fine",
    "i dont need anything", "i do not need anything",
    "i dont need any answer", "i do not need any answer",
    "i dont want anything", "i do not want anything",
    "no need", "not needed", "its fine", "it is fine",
    "never mind", "nevermind", "leave it", "forget it",
    "thats all", "that is all", "nothing more",
    "im good", "i am good", "im fine", "i am fine",
    "bye", "goodbye", "good bye", "see you", "take care",
    "ok bye", "okay bye", "thanks bye", "thank you bye",
    "i am done", "im done", "done", "all done",
    "no more questions", "no further questions",
    "i dont have any more questions",
    "thats it", "that is it", "enough",
    "stop", "end", "close", "exit",
    "no i am ok", "no its ok", "no it is ok",
    "not interested", "not right now", "maybe later",
    "i will come back later", "later"]
  patterns := [
    pCat [pBol, pLits ["no", "nope", "nah"], pBnd],
    pCat [pBol, pAlt [pLit "bye", pLit "goodbye", pCat [pLit "good", pWsStar, pLit "bye"],
      pCat [pLit "see", pWs, pLit "you"], pCat [pLit "take", pWs, pLit "care"]], pBnd],
    pCat [pBol, pAlt [pLit "done", pLit "finished", pCat [pLit "all", pWs, pLit "done"],
      pCat [pLit "im", pWs, pLit "done"],
      pCat [pLit "i", pWs, pLit "am", pWs, pLit "done"]], pEol],
    pCat [pBol, pAlt [pLit "nothing", pCat [pLit "nothing", pWs, pLit "else"],
      pCat [pLit "no", pWs, pLit "need"], pCat [pLit "not", pWs, pLit "needed"]], pEol],
    pCat [pBol, pAlt [pLit "stop", pLit "end", pLit "close", pLit "exit",
      pCat [pLit "leave", pWs, pLit "it"], pCat [pLit "forget", pWs, pLit "it"]], pEol],
    pCat [pBnd, pAlt [pLit "dont", pCat [pLit "do", pWs, pLit "not"],
      pLit ("don" ++ apS ++ "t")], pWs,
      pLits ["need", "want", "require"], pWs, pLits ["any", "anything", "an"], pBnd],
    pCat [pBol, pAlt [pLit "im", pCat [pLit "i", pWs, pLit "am"]], pWs,
      pLits ["good", "fine", "ok", "okay", "done"], pEol],
    pCat [pBol, pAlt [pCat [pLit "not", pWs, pLit "interested"],
      pCat [pLit "not", pWs, pLit "right", pWs, pLit "now"],
      pCat [pLit "maybe", pWs, pLit "later"], pLit "later"], pEol],
    pCat [pBol, pAlt [pCat [pLit "never", pWsStar, pLit "mind"],
      pCat [pLit "thats", pWs, pLits ["all", "it"]],
      pCat [pLit "that", pWs, pLit "is", pWs, pLits ["all", "it"]]], pEol]]
  keywords := ["no", "bye", "goodbye", "done", "nothing", "stop",
    "end", "leave", "forget", "fine", "later", "enough",
    "nevermind", "exit", "close"]
  phrasePatterns := ["no thanks", "no thank you", "i am fine", "im good",
    "nothing else", "thats all", "no need", "not needed",
    "leave it", "forget it", "never mind", "all done",
    "im done", "not interested", "maybe later",
    "i dont need", "i dont want", "no more questions"]

/-- The `abusive` route. -/
def abusiveRoute : Route where
  name := RouteName.abusive
  examples := [
    "fuck you", "you are an idiot", "this is bullshit",
    "what the hell", "piss off", "you are useless",
    "go to hell", "damn it", "you suck", "asshole",
    "you are a moron", "stupid bot", "this is garbage",
    "kill yourself", "i hate you", "you are worthless"]
  patterns := [
    pCat [pBnd, pLits ["fuck", "shit", "bitch", "cunt", "asshole", "bastard", "douchebag"], pBnd],
    pCat [pBnd, pLits ["idiot", "stupid", "dumb", "useless", "moron", "garbage"], pBnd],
    pCat [pBnd, pLits ["hell", "damn"], pBnd],
    pCat [pBnd, pLit "piss", pWsStar, pLit "off", pBnd],
    pCat [pBnd, pLit "kill", pWsStar, pLit "yourself", pBnd],
    pCat [pBnd, pLit "i", pWsStar, pLit "hate", pWsStar, pLit "you", pBnd]]
  keywords := ["fuck", "shit", "bitch", "cunt", "asshole", "bastard", "idiot", "stupid", "dumb",
    "useless", "hell", "damn", "piss off", "suck", "moron", "garbage", "kill", "hate",
    "worthless", "douchebag"]
  phrasePatterns := ["fuck you", "what the hell", "piss off", "go to hell", "you suck",
    "you are an idiot", "this is bullshit", "you are useless", "kill yourself", "i hate you"]

/-- The `normal_qa` route. -/
def normalQaRoute : Route where
  name := RouteName.normal_qa
  examples := [
    "what are your business hours", "how much does it cost",
    "where are you located", "what services do you offer",
    "do you accept insurance", "what is your return policy",
    "how long does shipping take", "can you help me with",
    "I have a question about", "tell me about your products",
    "what are the requirements", "how does this work",
    "explain the process", "what options do I have",
    "how to use this", "where can I find", "when do you open",
    "why is this happening", "which option is better",
    "i want to know about handshaking", "i want to understand about TCP",
    "tell me about data", "explain HTTP protocol"]
  patterns := [
    pCat [pBol, pLits ["what", "where", "when", "who", "why", "how", "which", "can", "could",
      "do", "does", "is", "are", "will", "would"], pBnd],
    pCat [pBnd, pLits ["tell", "explain", "describe", "clarify", "show"], pWs,
      pOpt (pCat [pLit "me", pWs]), pLits ["about", "how", "what", "why"], pBnd],
    pCat [pBnd, pLits ["question", "inquiry", "wondering", "curious", "asking"], pWs,
      pLits ["about", "regarding"], pBnd],
    pCat [pBnd, pLits ["help", "assist"], pWs, pLit "me", pWs,
      pLits ["with", "understand", "to"], pBnd],
    pCat [pBnd, pLits ["information", "details", "info"], pWs,
      pLits ["about", "on", "regarding"], pBnd],
    pCat [pBnd, pLit "how", pWs, pLits ["do", "can", "does", "to"], pBnd],
    pCat [pBnd, pLits ["want", "need"], pWs, pLit "to", pWs,
      pLits ["know", "understand", "learn"], pWs, pLit "about", pBnd]]
  keywords := ["what", "how", "where", "when", "why", "question", "help", "information",
    "explain", "tell", "cost", "price", "hours", "services", "policy", "know", "understand"]
  phrasePatterns := ["how much", "what are", "where is", "how does", "can you help",
    "tell me", "how to", "business hours", "what is", "want to know", "want to understand"]

/-- Lookup of the fast-path catalog by route name (`self.routes`). -/
def routeOf : RouteName → Route
  | RouteName.greeting => greetingRoute
  | RouteName.agent_request => agentRequestRoute
  | RouteName.scheduler => schedulerRoute
  | RouteName.conversation_close => conversationCloseRoute
  | RouteName.abusive => abusiveRoute
  | RouteName.normal_qa => normalQaRoute

/-- Dict insertion order of `self.routes` (Python dicts preserve it; `max`
over the dict iterates keys in this order). -/
def routeOrder : List RouteName :=
  [RouteName.greeting, RouteName.agent_request, RouteName.scheduler,
   RouteName.conversation_close, RouteName.abusive, RouteName.normal_qa]

/-! ## Vocabulary, IDF table and TF-IDF vectors
(`_build_vocabulary`, `_calculate_idf`, `_text_to_tfidf_vector`,
`_compute_route_vectors`, `_cosine_similarity`) -/

/-- All example utterances of the catalog, in route order
(the corpus both the vocabulary and the IDF table are built from). -/
def allExamples : List String := routeOrder.flatMap (fun r => (routeOf r).examples)

/-- `_build_vocabulary`: the set of tokens of all examples.  The Python
code assigns integer slots to the sorted set; vectors are modelled as
functions on `String`, so only membership matters. -/
def vocabList : List String := (allExamples.flatMap tokenize).dedup

/-- The vocabulary as a finite set (the index set of every dense vector). -/
def vocabFinset : Finset String := vocabList.toFinset

/-- Total number of example documents (`total_docs`). -/
def totalDocs : Nat := allExamples.length

/-- Number of examples whose token set contains `w` (`doc_count`). -/
def docCount (w : String) : Nat := allExamples.countP (fun ex => (tokenize ex).contains w)

/-- `_calculate_idf` plus the `idf_scores.get(word, 1.0)` lookup: smoothed
IDF for corpus words, default 1.0 otherwise. -/
noncomputable def idfScore (w : String) : ℝ :=
  if docCount w = 0 then 1
  else Real.log ((totalDocs + 1) / (docCount w + 1)) + 1

/-- The un-normalized TF-IDF vector of a text: term frequency times IDF on
vocabulary slots, zero elsewhere (`_text_to_tfidf_vector` before the norm
step; non-vocabulary tokens only enter through the length denominator). -/
noncomputable def rawTfidfVector (t : String) : String → ℝ := fun w =>
  let ws := tokenize t
  let total : ℝ := if ws.isEmpty then 1 else (ws.length : ℝ)
  if w ∈ vocabList then ((ws.count w : ℝ) / total) * idfScore w else 0

/-- Euclidean norm over the vocabulary slots (`np.linalg.norm`). -/
noncomputable def l2norm (v : String → ℝ) : ℝ :=
  Real.sqrt (∑ w ∈ vocabFinset, (v w) ^ 2)

/-- `_text_to_tfidf_vector`: L2-normalize unless the norm is zero. -/
noncomputable def textToTfidfVector (t : String) : String → ℝ :=
  let n := l2norm (rawTfidfVector t)
  if 0 < n then fun w => rawTfidfVector t w / n else rawTfidfVector t

/-- `_compute_route_vectors`: per-route mean of the example vectors. -/
noncomputable def routeVector (r : RouteName) : String → ℝ := fun w =>
  (((routeOf r).examples).map (fun ex => textToTfidfVector ex w)).sum
    / ((routeOf r).examples).length

/-- `_cosine_similarity` with its zero-norm guard. -/
noncomputable def cosineSimilarity (v1 v2 : String → ℝ) : ℝ :=
  if l2norm v1 = 0 ∨ l2norm v2 = 0 then 0
  else (∑ w ∈ vocabFinset, v1 w * v2 w) / (l2norm v1 * l2norm v2)

/-- `_tfidf_similarity_score`. -/
noncomputable def tfidfSimilarityScore (t : String) (r : RouteName) : ℝ :=
  cosineSimilarity (textToTfidfVector t) (routeVector r)

/-! ## The four rational signal scores
(`_pattern_matching_score`, `_keyword_matching_score`,
`_phrase_matching_score`, `_ngram_overlap_score`) -/

/-- Info-seeking terms of the agent-request pattern gate. -/
def patInfoTerms : List String := ["know", "understand", "learn", "about", "explain", "tell"]

/-- Agent keywords of the agent-request pattern gate. -/
def patAgentKeywords : List String :=
  ["agent", "human", "representative", "operator", "person", "support"]

/-- `_pattern_matching_score`: fraction of the route's patterns matching,
with the abusive shortcut and the agent-request info-term gate. -/
def patternMatchingScore (t : String) (r : RouteName) : ℚ :=
  let pats := (routeOf r).patterns
  if pats.isEmpty then 0
  else if r = RouteName.abusive ∧ pats.any (fun p => searchPat p t) then 1
  else if r = RouteName.agent_request ∧
      (patInfoTerms.any (tokenize t).contains ∧
       ¬ patAgentKeywords.any (tokenize t).contains) then 0
  else (pats.countP (fun p => searchPat p t) : ℚ) / pats.length

/-- Agent keywords of the keyword-score gate. -/
def kwAgentKeywords : List String := ["agent", "human", "representative", "operator"]

/-- Action verbs of the keyword-score gate. -/
def kwActionVerbs : List String := ["speak", "talk", "connect", "transfer", "need", "want", "get"]

/-- Technical terms of the keyword-score gate. -/
def kwTechnicalTerms : List String :=
  ["tcp", "http", "api", "protocol", "relationship", "between",
   "difference", "comparison", "vs", "versus", "know", "understand",
   "learn", "handshaking", "data"]

/-- A keyword hit: present as a token or as a substring of the lowercased
text (`keyword.lower() in text_words or keyword.lower() in text_lower`). -/
def keywordHit (t : String) (kw : String) : Bool :=
  (tokenize t).contains (lowerStr kw) || containsSub (lowerStr kw) (lowerStr t)

/-- `_keyword_matching_score` with the abusive shortcut and the
agent-request gates. -/
def keywordMatchingScore (t : String) (r : RouteName) : ℚ :=
  let route := routeOf r
  if (tokenize t).isEmpty then 0
  else if r = RouteName.abusive ∧ route.keywords.any (keywordHit t) then 1
  else if r = RouteName.agent_request ∧
      (kwTechnicalTerms.any (tokenize t).contains ∧
       ¬ (kwAgentKeywords.any (tokenize t).contains ∧
          kwActionVerbs.any (tokenize t).contains)) then 0
  else if r = RouteName.agent_request ∧
      ¬ (kwAgentKeywords.any (tokenize t).contains ∧
         kwActionVerbs.any (tokenize t).contains) then 0
  else if route.keywords.isEmpty then 0
  else (route.keywords.countP (keywordHit t) : ℚ) / route.keywords.length

/-- `_phrase_matching_score` with the abusive shortcut. -/
def phraseMatchingScore (t : String) (r : RouteName) : ℚ :=
  let route := routeOf r
  if route.phrasePatterns.isEmpty then 0
  else if r = RouteName.abusive ∧
      route.phrasePatterns.any (fun ph => containsSub ph (lowerStr t)) then 1
  else (route.phrasePatterns.countP (fun ph => containsSub ph (lowerStr t)) : ℚ)
    / route.phrasePatterns.length

/-- `_ngram_overlap_score`: Jaccard index of the query's bigram set against
the union of the route examples' bigram sets. -/
def ngramOverlapScore (t : String) (r : RouteName) : ℚ :=
  let qb := (getBigrams t).dedup
  if qb.isEmpty then 0
  else
    let rb := (((routeOf r).examples).flatMap getBigrams).dedup
    if rb.isEmpty then 0
    else
      let inter := (qb.filter rb.contains).length
      let uni := ((qb ++ rb).dedup).length
      if uni = 0 then 0 else (inter : ℚ) / uni

/-! ## The ensemble (`_ensemble_score`) -/

/-- `_ensemble_score`: the fixed-weight linear combination of the five
signals. -/
noncomputable def ensembleScore (t : String) (r : RouteName) : ℝ :=
  0.30 * tfidfSimilarityScore t r +
  0.25 * (patternMatchingScore t r : ℝ) +
  0.20 * (keywordMatchingScore t r : ℝ) +
  0.15 * (phraseMatchingScore t r : ℝ) +
  0.10 * (ngramOverlapScore t r : ℝ)

/-! ## The post-ensemble decision logic (fast path, lines 481-536, and the
slow path's independently re-implemented copy, lines 835-885).  Both are
stated over an arbitrary linearly ordered field so that the same functions
describe the real-valued classifiers and remain evaluable on rational
test scores. -/

/-- `max(scores, key=scores.get)`: first maximal key in dict order. -/
def argmaxRoute {α : Type} [LinearOrder α] (scores : RouteName → α) : RouteName :=
  routeOrder.foldl (fun acc r => if scores acc < scores r then r else acc) RouteName.greeting

/-- Agent markers of the classify-level agent gate (both classifiers). -/
def agentMarkerWords : List String :=
  ["agent", "human", "representative", "operator", "someone",
   "person", "support", "customer", "service", "sales", "team"]

/-- Communication verbs of the classify-level agent gate (both classifiers). -/
def commVerbWords : List String :=
  ["talk", "speak", "call", "connect", "contact", "reach", "transfer", "escalate"]

/-- Scheduling/booking words of the classify-level scheduler gate
(both classifiers). -/
def scheduleMarkerWords : List String :=
  ["schedule", "scheduling", "scheduled", "reschedule",
   "book", "booking", "appointment", "reservation",
   "reserve", "slot", "arrange", "calendar", "meeting"]

/-- The agent gate: the query words must contain an agent marker AND a
communication verb. -/
def agentGatePass (words : List String) : Bool :=
  agentMarkerWords.any words.contains && commVerbWords.any words.contains

/-- The scheduler gate: the query words must contain an explicit
scheduling/booking word. -/
def schedulerGatePass (words : List String) : Bool :=
  scheduleMarkerWords.any words.contains

/-- `max(scores[greeting], scores[agent_request], scores[scheduler],
scores[conversation_close])`. -/
def maxSpecificScore {α : Type} [LinearOrder α] (scores : RouteName → α) : α :=
  max (scores RouteName.greeting) (max (scores RouteName.agent_request)
    (max (scores RouteName.scheduler) (scores RouteName.conversation_close)))

/-- The fast classifier's decision procedure after the per-route ensemble
scores are known (argmax, the two word gates, the `max_specific` rule and
the flat `0.20` low-confidence demotion), lines 481-531. -/
def fastDecision {α : Type} [LinearOrderedField α]
    (scores : RouteName → α) (words : List String) : RouteName × α :=
  let best0 := argmaxRoute scores
  let s1 : RouteName × α :=
    if best0 = RouteName.agent_request ∧ agentGatePass words = false then
      (RouteName.normal_qa, scores RouteName.normal_qa)
    else (best0, scores best0)
  let s2 : RouteName × α :=
    if s1.1 = RouteName.scheduler ∧ schedulerGatePass words = false then
      (RouteName.normal_qa, scores RouteName.normal_qa)
    else s1
  if s2.2 < 1/20 ∨ maxSpecificScore scores < 1/20 then
    (RouteName.normal_qa, scores RouteName.normal_qa)
  else if s2.1 ≠ RouteName.normal_qa ∧ s2.2 < 1/5 then
    if scores RouteName.normal_qa ≥ s2.2 then
      (RouteName.normal_qa, scores RouteName.normal_qa)
    else s2
  else s2

/-- The slow (BERT) classifier's post-similarity decision procedure,
lines 835-885: identical word gates and `max_specific` rule, but the final
demotion uses the `0.60` confidence threshold and the `0.9 *` slack. -/
def bertDecision {α : Type} [LinearOrderedField α]
    (scores : RouteName → α) (words : List String) : RouteName × α :=
  let best0 := argmaxRoute scores
  let s1 : RouteName × α :=
    if best0 = RouteName.agent_request ∧ agentGatePass words = false then
      (RouteName.normal_qa, scores RouteName.normal_qa)
    else (best0, scores best0)
  let s2 : RouteName × α :=
    if s1.1 = RouteName.scheduler ∧ schedulerGatePass words = false then
      (RouteName.normal_qa, scores RouteName.normal_qa)
    else s1
  if s2.2 < 1/20 ∨ maxSpecificScore scores < 1/20 then
    (RouteName.normal_qa, scores RouteName.normal_qa)
  else if s2.1 ≠ RouteName.normal_qa ∧ s2.2 < 3/5 then
    if scores RouteName.normal_qa ≥ 9/10 * s2.2 then
      (RouteName.normal_qa, scores RouteName.normal_qa)
    else s2
  else s2

/-! ## The fast classifier (`SemanticRouteClassifier.classify`) -/

/-- The fast classifier's canned exact-match conversation-close set
(lines 437-451). -/
def fastCloseList : List String := [
  "no", "nope", "nah", "bye", "goodbye", "done", "nothing",
  "stop", "end", "exit", "close", "later", "enough",
  "ok bye", "okay bye", "thanks bye", "no thanks",
  "no thank you", "im fine", "i am fine", "im good",
  "i am good", "im done", "i am done", "all done",
  "thats all", "that is all", "thats it", "that is it",
  "nothing else", "no need", "not needed", "never mind",
  "nevermind", "leave it", "forget it", "not interested",
  "not right now", "maybe later", "no i am ok", "no its ok",
  "no it is ok", "no more questions",
  "i dont need any answer", "i do not need any answer",
  "i dont need anything", "i do not need anything",
  "i dont want anything", "i do not want anything"]

/-- `SemanticRouteClassifier.classify`, reduced to the `(route, confidence)`
pair: empty-query default, exact close-phrase shortcut, then the ensemble
scores fed to the decision procedure. -/
noncomputable def fastClassify (q : String) : RouteName × ℝ :=
  if trimStr q = "" then (RouteName.normal_qa, 0)
  else
    let pq := preprocessText q
    if pq ∈ fastCloseList then (RouteName.conversation_close, 0.98)
    else fastDecision (fun r => ensembleScore pq r) (tokenize pq)

/-! ## The hybrid coordinator (`HybridIntentClassifier`) -/

/-- Which branch of the hybrid coordinator produced the result (the
`method` field of the diagnostic detail; `emptyInput` stands for the
empty-query early return whose detail dict is empty). -/
inductive Method
  | emptyInput
  | ruleClose
  | ruleTalkBot
  | ruleContact
  | tfidfFast
  | bertAccurate
  | tfidfFallback
deriving DecidableEq, Repr

/-- The hybrid coordinator's canned exact-match conversation-close set
(lines 972-985). -/
def hybridCloseList : List String := [
  "no", "nope", "nah", "bye", "goodbye", "done", "nothing",
  "stop", "end", "exit", "close", "later", "enough",
  "ok bye", "okay bye", "thanks bye", "no thanks",
  "no thank you", "im fine", "i am fine", "im good",
  "i am good", "im done", "i am done", "all done",
  "thats all", "that is all", "thats it", "that is it",
  "nothing else", "no need", "not needed", "never mind",
  "nevermind", "leave it", "forget it", "not interested",
  "not right now", "maybe later", "no i am ok", "no its ok",
  "i dont need any answer", "i do not need any answer",
  "i dont need anything", "i do not need anything",
  "i dont want anything", "i do not want anything"]

/-- Word lists of the talk-to-bot guard (lines 1002-1013). -/
def talkMarkers : List String := ["talk", "speak", "chat"]

/-- Bot-target substrings of the talk-to-bot guard. -/
def botTargets : List String := [" you", "you ", " bot", "bot "]

/-- Human-marker substrings of the talk-to-bot guard. -/
def humanMarkersGuard : List String :=
  ["agent", "human", "representative", "operator", "someone",
   "person", "support", "customer service", "customer-care", "customer care"]

/-- The talk-to-bot guard: a talk verb plus a "you"/"bot" target and no
human marker keeps the user with the bot. -/
def talkToBotGuard (q : String) : Bool :=
  let ql := lowerStr q
  talkMarkers.any (fun t => containsSub t ql) &&
  botTargets.any (fun b => containsSub b ql) &&
  !(humanMarkersGuard.any (fun h2 => containsSub h2 ql))

/-- Communication verbs of the explicit-contact guard (lines 1026-1041). -/
def commVerbsGuard : List String :=
  ["talk", "speak", "call", "connect", "contact", "reach", "transfer"]

/-- Escalation targets of the explicit-contact guard. -/
def escalationTargets : List String :=
  ["agent", "human", "representative", "person", "someone",
   "somebody", "support", "team", "staff", "sales", "sales team",
   "salesperson", "advisor", "consultant", "expert"]

/-- Direct call-me phrases of the explicit-contact guard. -/
def directPhrases : List String :=
  ["call me", "call us", "give me a call", "ring me", "connect me", "connect us"]

/-- Scheduling words that veto the explicit-contact guard. -/
def scheduleWordsGuard : List String :=
  ["schedule", "book", "booking", "appointment", "slot"]

/-- The explicit-contact guard: a direct call-me phrase, or a communication
verb together with an escalation target, and no scheduling word. -/
def contactGuard (q : String) : Bool :=
  let ql := lowerStr q
  (directPhrases.any (fun p => containsSub p ql) ||
    (commVerbsGuard.any (fun v => containsSub v ql) &&
     escalationTargets.any (fun t => containsSub t ql))) &&
  !(scheduleWordsGuard.any (fun s => containsSub s ql))

/-- The hybrid coordinator's process-lifetime state: whether the slow path
is enabled, the loaded slow classifier (if any), and the loaded flag
(`enable_bert`, `bert_classifier`, `bert_loaded`). -/
structure HybridState where
  enableBert : Bool
  bertClassifier : Option (String → RouteName × ℝ)
  bertLoaded : Bool

/-- The freshly constructed coordinator (`__init__` with the slow path
available). -/
def initState : HybridState :=
  { enableBert := true, bertClassifier := none, bertLoaded := false }

/-- `_ensure_bert_loaded`: one lazy construction attempt; `load` is the
outcome constructing `BERTIntentClassifier()` would have (`none` models a
raised exception, which the method catches and converts into
`enable_bert = False`). -/
def ensureBertLoaded (load : Option (String → RouteName × ℝ))
    (s : HybridState) : HybridState :=
  if s.bertLoaded = false ∧ s.enableBert = true then
    match load with
    | some b => { s with bertClassifier := some b, bertLoaded := true }
    | none => { s with enableBert := false }
  else s

/-- The full observable outcome of one `HybridIntentClassifier.classify`
call: the returned triple, the state after the call, and whether the call
reached `_ensure_bert_loaded`. -/
structure HybridOutcome where
  route : RouteName
  conf : ℝ
  method : Method
  state : HybridState
  loadAttempted : Bool

/-- `HybridIntentClassifier.classify` (threshold `use_bert_threshold =
0.70` as constructed by `get_hybrid_classifier`): empty-query default, the
three rule guards, the fast path with its confidence gate, then the lazy
slow path with fallback. -/
noncomputable def hybridClassify (load : Option (String → RouteName × ℝ))
    (s : HybridState) (q : String) : HybridOutcome :=
  if trimStr q = "" then ⟨RouteName.normal_qa, 0, Method.emptyInput, s, false⟩
  else if normalizeQuery q ∈ hybridCloseList then
    ⟨RouteName.conversation_close, 0.98, Method.ruleClose, s, false⟩
  else if talkToBotGuard q then
    ⟨RouteName.normal_qa, 0.95, Method.ruleTalkBot, s, false⟩
  else if contactGuard q then
    ⟨RouteName.agent_request, 0.97, Method.ruleContact, s, false⟩
  else
    let fr := fastClassify q
    if 0.70 ≤ fr.2 ∨ s.enableBert = false then
      ⟨fr.1, fr.2, Method.tfidfFast, s, false⟩
    else
      let s2 := ensureBertLoaded load s
      match s2.bertClassifier with
      | some b => ⟨(b q).1, (b q).2, Method.bertAccurate, s2, true⟩
      | none => ⟨fr.1, fr.2, Method.tfidfFallback, s2, true⟩

/-! ## Helper lemmas -/

/-- Every route is enumerated in the dict order. -/
lemma mem_routeOrder (r : RouteName) : r ∈ routeOrder := by
  cases r <;> simp [routeOrder]

/-- Maximality of the first-max fold that models Python's
`max(scores, key=scores.get)`. -/
lemma le_foldl_max {α : Type} [LinearOrder α] (s : RouteName → α) (l : List RouteName) :
    ∀ (init r : RouteName), r ∈ l ∨ r = init →
      s r ≤ s (l.foldl (fun acc x => if s acc < s x then x else acc) init) := by
  induction l with
  | nil =>
    intro init r h
    rcases h with h | h
    · exact absurd h (List.not_mem_nil r)
    · subst h; rw [List.foldl_nil]
  | cons a l ih =>
    intro init r h
    rw [List.foldl_cons]
    rcases h with h | h
    · rcases List.mem_cons.mp h with rfl | hmem
      · refine le_trans ?_ (ih _ _ (Or.inr rfl))
        by_cases hlt : s init < s r
        · rw [if_pos hlt]
        · rw [if_neg hlt]; exact le_of_not_lt hlt
      · exact ih _ _ (Or.inl hmem)
    · subst h
      refine le_trans ?_ (ih _ _ (Or.inr rfl))
      by_cases hlt : s r < s a
      · rw [if_pos hlt]; exact le_of_lt hlt
      · rw [if_neg hlt]

/-- The argmax route carries a maximal score. -/
lemma le_argmaxRoute {α : Type} [LinearOrder α] (s : RouteName → α) (r : RouteName) :
    s r ≤ s (argmaxRoute s) :=
  le_foldl_max s routeOrder RouteName.greeting r (Or.inl (mem_routeOrder r))

/-- An all-whitespace query normalizes to the empty string. -/
lemma normalizeQuery_of_trim_empty {q : String} (h : trimStr q = "") :
    normalizeQuery q = "" := by
  unfold normalizeQuery
  rw [h]
  rfl

/-! ## C9 — the two canned close-phrase sets -/

/-- C9 counterexample: the phrase "no more questions" is in the fast
classifier's canned close set but not in the hybrid coordinator's, so the
two sets are not equal as sets of strings. -/
theorem c9_sets_differ :
    "no more questions" ∈ fastCloseList ∧ "no more questions" ∉ hybridCloseList := by
  decide

/-- C9 (amended): the hybrid coordinator's canned close set is a strict
subset of the fast classifier's: it contains every fast phrase except
exactly "no it is ok" and "no more questions". -/
theorem c9_amended_subset :
    hybridCloseList.all (fun p => fastCloseList.contains p) = true ∧
    fastCloseList.all (fun p =>
      hybridCloseList.contains p || p == "no it is ok" || p == "no more questions") = true ∧
    "no it is ok" ∉ hybridCloseList ∧ "no more questions" ∉ hybridCloseList := by
  decide

/-! ## C2 — exact-phrase idempotence of the hybrid coordinator -/

/-- C2: any input whose normalization (lowercased, punctuation stripped,
whitespace collapsed) is one of the hybrid coordinator's canned
conversation-close phrases is classified `conversation_close` with
confidence exactly 0.98 by the early guard, before either classifier can
fire, leaving the coordinator state untouched. -/
theorem c2_close_idempotent (load : Option (String → RouteName × ℝ))
    (s : HybridState) (q : String)
    (h : normalizeQuery q ∈ hybridCloseList) :
    hybridClassify load s q =
      ⟨RouteName.conversation_close, 0.98, Method.ruleClose, s, false⟩ := by
  have hq : ¬ trimStr q = "" := by
    intro h0
    rw [normalizeQuery_of_trim_empty h0] at h
    exact absurd h (by decide)
  unfold hybridClassify
  rw [if_neg hq, if_pos h]

/-- C2 witness: a punctuated, capitalized close phrase. -/
theorem c2_close_idempotent_witness :
    normalizeQuery " No,  THANKS!! " ∈ hybridCloseList ∧
    hybridClassify none initState " No,  THANKS!! " =
      ⟨RouteName.conversation_close, 0.98, Method.ruleClose, initState, false⟩ :=
  ⟨by decide, c2_close_idempotent none initState " No,  THANKS!! " (by decide)⟩

/-! ## C1 — call disambiguation at the hybrid coordinator -/

/-- C1 counterexample: the hybrid coordinator classifies "call me tomorrow"
as `agent_request`, not `scheduler`: the explicit-contact guard fires on
the direct phrase "call me" (its scheduling-word veto does not know
"tomorrow") before the slow classifier's future-time heuristic can ever
run. -/
theorem c1_call_me_tomorrow_not_scheduler :
    (hybridClassify none initState "call me tomorrow").route = RouteName.agent_request ∧
    RouteName.agent_request ≠ RouteName.scheduler := by
  constructor
  · unfold hybridClassify
    rw [if_neg (by decide), if_neg (by decide), if_neg (by decide), if_pos (by decide)]
  · decide

/-- C1 (amended): both "call me tomorrow" and "connect me to sales now"
trigger the hybrid coordinator's explicit-contact guard and return
`agent_request` with confidence 0.97 (the first against the spec's
expectation of `scheduler`). -/
theorem c1_amended_contact_guard (load : Option (String → RouteName × ℝ))
    (s : HybridState) :
    hybridClassify load s "call me tomorrow" =
      ⟨RouteName.agent_request, 0.97, Method.ruleContact, s, false⟩ ∧
    hybridClassify load s "connect me to sales now" =
      ⟨RouteName.agent_request, 0.97, Method.ruleContact, s, false⟩ := by
  constructor <;>
  · unfold hybridClassify
    rw [if_neg (by decide), if_neg (by decide), if_neg (by decide), if_pos (by decide)]

/-! ## C5 — the fast-path gate never reaches the slow classifier -/

/-- C5: when no rule short-circuit fires and the fast confidence reaches
the threshold 0.70 (or the slow path is disabled), the coordinator returns
the fast result tagged `tfidf_fast`, does not call `_ensure_bert_loaded`,
and leaves its state unchanged. -/
theorem c5_fast_path_no_bert (load : Option (String → RouteName × ℝ))
    (s : HybridState) (q : String)
    (h1 : ¬ trimStr q = "")
    (h2 : normalizeQuery q ∉ hybridCloseList)
    (h3 : talkToBotGuard q = false)
    (h4 : contactGuard q = false)
    (h5 : (0.70 : ℝ) ≤ (fastClassify q).2 ∨ s.enableBert = false) :
    hybridClassify load s q =
      ⟨(fastClassify q).1, (fastClassify q).2, Method.tfidfFast, s, false⟩ := by
  unfold hybridClassify
  rw [if_neg h1, if_neg h2, if_neg (by simp [h3]), if_neg (by simp [h4])]
  simp only []
  rw [if_pos h5]

/-- C5 witness: a plain question with the slow path disabled. -/
theorem c5_fast_path_no_bert_witness :
    ((0.70 : ℝ) ≤ (fastClassify "what are your hours").2 ∨
      (HybridState.mk false none false).enableBert = false) ∧
    hybridClassify none (HybridState.mk false none false) "what are your hours" =
      ⟨(fastClassify "what are your hours").1, (fastClassify "what are your hours").2,
        Method.tfidfFast, HybridState.mk false none false, false⟩ :=
  ⟨Or.inr rfl,
   c5_fast_path_no_bert none (HybridState.mk false none false) "what are your hours"
     (by decide) (by decide) (by decide) (by decide) (Or.inr rfl)⟩

/-! ## C3 — the fast classifier's gate demotions -/

/-- C3: in the fast classifier's decision procedure, an `agent_request`
argmax without both an agent-marker word and a communication-verb word, or
a `scheduler` argmax without an explicit scheduling/booking word, is
demoted to `normal_qa` with `normal_qa`'s own ensemble score as the
returned confidence. -/
theorem c3_gate_demotions {α : Type} [LinearOrderedField α]
    (scores : RouteName → α) (words : List String) :
    (argmaxRoute scores = RouteName.agent_request → agentGatePass words = false →
      fastDecision scores words = (RouteName.normal_qa, scores RouteName.normal_qa)) ∧
    (argmaxRoute scores = RouteName.scheduler → schedulerGatePass words = false →
      fastDecision scores words = (RouteName.normal_qa, scores RouteName.normal_qa)) := by
  constructor
  · intro hb hg
    unfold fastDecision
    simp [hb, hg]
  · intro hb hg
    unfold fastDecision
    simp [hb, hg]

/-- C3 witness: concrete rational score tables whose argmax is
`agent_request` (resp. `scheduler`) on a query with no gate words. -/
theorem c3_gate_demotions_witness :
    argmaxRoute (fun r => if r = RouteName.agent_request then (1 : ℚ) else 0) =
      RouteName.agent_request ∧
    agentGatePass ["hello"] = false ∧
    fastDecision (fun r => if r = RouteName.agent_request then (1 : ℚ) else 0) ["hello"] =
      (RouteName.normal_qa,
        (fun r => if r = RouteName.agent_request then (1 : ℚ) else 0) RouteName.normal_qa) ∧
    argmaxRoute (fun r => if r = RouteName.scheduler then (1 : ℚ) else 0) =
      RouteName.scheduler ∧
    schedulerGatePass ["hello"] = false ∧
    fastDecision (fun r => if r = RouteName.scheduler then (1 : ℚ) else 0) ["hello"] =
      (RouteName.normal_qa,
        (fun r => if r = RouteName.scheduler then (1 : ℚ) else 0) RouteName.normal_qa) :=
  ⟨by decide, by decide,
   (c3_gate_demotions _ _).1 (by decide) (by decide),
   by decide, by decide,
   (c3_gate_demotions _ _).2 (by decide) (by decide)⟩

/-! ## C7 — ensemble weights and argmax choice -/

/-- C7: for every preprocessed query and route, the ensemble score is
exactly the 0.30/0.25/0.20/0.15/0.10-weighted sum of the TF-IDF cosine,
pattern, keyword, phrase and bigram-Jaccard signals, and the route the
decision procedure starts from (before the demotion stages) carries the
maximal ensemble score. -/
theorem c7_ensemble_weights_argmax (q : String) (r : RouteName) :
    ensembleScore q r =
      0.30 * tfidfSimilarityScore q r +
      0.25 * (patternMatchingScore q r : ℝ) +
      0.20 * (keywordMatchingScore q r : ℝ) +
      0.15 * (phraseMatchingScore q r : ℝ) +
      0.10 * (ngramOverlapScore q r : ℝ) ∧
    ensembleScore q r ≤ ensembleScore q (argmaxRoute (fun r2 => ensembleScore q r2)) :=
  ⟨rfl, le_argmaxRoute (fun r2 => ensembleScore q r2) r⟩

/-! ## C8 — fast vs. slow decision logic -/

/-- A concrete score table exercising the divergence of the two final
demotion stages: greeting 3/10, normal_qa 29/100, every other route 0. -/
def divergenceScores : RouteName → ℚ
  | RouteName.greeting => 3/10
  | RouteName.normal_qa => 29/100
  | _ => 0

/-- C8 counterexample: on identical per-route scores (`divergenceScores`)
and identical query words, the fast decision keeps `greeting` (3/10 is
above its flat 0.20 demotion threshold) while the slow decision demotes to
`normal_qa` (3/10 is below its 0.60 threshold and 29/100 ≥ 0.9 · 3/10), so
the two decision procedures are not equivalent. -/
theorem c8_decisions_differ :
    (fastDecision divergenceScores []).1 = RouteName.greeting ∧
    (bertDecision divergenceScores []).1 = RouteName.normal_qa ∧
    RouteName.greeting ≠ RouteName.normal_qa := by
  refine ⟨?_, ?_, by decide⟩ <;>
  · norm_num [fastDecision, bertDecision, divergenceScores, argmaxRoute, routeOrder,
      maxSpecificScore, agentGatePass, schedulerGatePass, agentMarkerWords, commVerbWords,
      scheduleMarkerWords, List.foldl, List.any,
      show ¬ RouteName.greeting = RouteName.agent_request from by decide,
      show ¬ RouteName.greeting = RouteName.scheduler from by decide,
      show ¬ RouteName.greeting = RouteName.normal_qa from by decide]

/-- The two final demotion stages compared on an arbitrary post-gate pair:
they agree unless the slow one demotes to `normal_qa` alone. -/
lemma bert_final_vs_fast_final {α : Type} [LinearOrderedField α]
    (scores : RouteName → α) (p : RouteName × α)
    (h0 : 0 ≤ scores RouteName.normal_qa) :
    (if p.2 < 1/20 ∨ maxSpecificScore scores < 1/20 then
        (RouteName.normal_qa, scores RouteName.normal_qa)
      else if p.1 ≠ RouteName.normal_qa ∧ p.2 < 3/5 then
        if scores RouteName.normal_qa ≥ 9/10 * p.2 then
          (RouteName.normal_qa, scores RouteName.normal_qa)
        else p
      else p) =
    (if p.2 < 1/20 ∨ maxSpecificScore scores < 1/20 then
        (RouteName.normal_qa, scores RouteName.normal_qa)
      else if p.1 ≠ RouteName.normal_qa ∧ p.2 < 1/5 then
        if scores RouteName.normal_qa ≥ p.2 then
          (RouteName.normal_qa, scores RouteName.normal_qa)
        else p
      else p) ∨
    (if p.2 < 1/20 ∨ maxSpecificScore scores < 1/20 then
        (RouteName.normal_qa, scores RouteName.normal_qa)
      else if p.1 ≠ RouteName.normal_qa ∧ p.2 < 3/5 then
        if scores RouteName.normal_qa ≥ 9/10 * p.2 then
          (RouteName.normal_qa, scores RouteName.normal_qa)
        else p
      else p) = (RouteName.normal_qa, scores RouteName.normal_qa) := by
  by_cases hA : p.2 < 1/20 ∨ maxSpecificScore scores < 1/20
  · left; rw [if_pos hA, if_pos hA]
  · rw [if_neg hA, if_neg hA]
    by_cases hB : p.1 ≠ RouteName.normal_qa ∧ p.2 < 1/5
    · have hB2 : p.1 ≠ RouteName.normal_qa ∧ p.2 < 3/5 :=
        ⟨hB.1, lt_trans hB.2 (by norm_num)⟩
      rw [if_pos hB, if_pos hB2]
      by_cases hC : scores RouteName.normal_qa ≥ p.2
      · have hC2 : scores RouteName.normal_qa ≥ 9/10 * p.2 := by
          rcases le_or_lt 0 p.2 with hp | hp
          · calc (9:α)/10 * p.2 ≤ 1 * p.2 :=
                  mul_le_mul_of_nonneg_right (by norm_num) hp
              _ = p.2 := one_mul _
              _ ≤ scores RouteName.normal_qa := hC
          · have h9 : (9:α)/10 * p.2 < 0 := by nlinarith
            exact le_of_lt (lt_of_lt_of_le h9 h0)
        rw [if_pos hC, if_pos hC2]; left; rfl
      · rw [if_neg hC]
        by_cases hD : scores RouteName.normal_qa ≥ 9/10 * p.2
        · rw [if_pos hD]; right; rfl
        · rw [if_neg hD]; left; rfl
    · rw [if_neg hB]
      by_cases hB2 : p.1 ≠ RouteName.normal_qa ∧ p.2 < 3/5
      · rw [if_pos hB2]
        by_cases hD : scores RouteName.normal_qa ≥ 9/10 * p.2
        · rw [if_pos hD]; right; rfl
        · rw [if_neg hD]; left; rfl
      · rw [if_neg hB2]; left; rfl

/-- C8 (amended): on the same per-route scores (with `normal_qa`'s score
nonnegative, as every ensemble score is) and the same query words, the
slow classifier's agent_request and scheduler word gates and its
`max_specific` rule behave exactly like the fast classifier's; the final
low-confidence demotions differ (threshold 0.60 with 0.9-slack vs. a flat
0.20), so the slow decision either equals the fast one or additionally
demotes to `(normal_qa, scores normal_qa)`. -/
theorem c8_amended_decision_relation {α : Type} [LinearOrderedField α]
    (scores : RouteName → α) (words : List String)
    (h0 : 0 ≤ scores RouteName.normal_qa) :
    bertDecision scores words = fastDecision scores words ∨
    bertDecision scores words = (RouteName.normal_qa, scores RouteName.normal_qa) := by
  unfold bertDecision fastDecision
  exact bert_final_vs_fast_final scores _ h0

/-- C8 amended-claim witness at concrete scores and words. -/
theorem c8_amended_decision_relation_witness :
    (0 : ℚ) ≤ (fun r => if r = RouteName.agent_request then (1 : ℚ) else 0) RouteName.normal_qa ∧
    (bertDecision (fun r => if r = RouteName.agent_request then (1 : ℚ) else 0) ["hello"] =
        fastDecision (fun r => if r = RouteName.agent_request then (1 : ℚ) else 0) ["hello"] ∨
      bertDecision (fun r => if r = RouteName.agent_request then (1 : ℚ) else 0) ["hello"] =
        (RouteName.normal_qa,
          (fun r => if r = RouteName.agent_request then (1 : ℚ) else 0) RouteName.normal_qa)) :=
  ⟨by decide, c8_amended_decision_relation _ ["hello"] (by decide)⟩

/-! ## C10 — the TF-IDF vectorizer's norm guard and vocabulary support -/

/-- Coordinates outside the vocabulary are never written. -/
lemma rawTfidfVector_not_vocab (t : String) {w : String} (hw : w ∉ vocabList) :
    rawTfidfVector t w = 0 := by
  unfold rawTfidfVector
  simp only [if_neg hw]

set_option maxRecDepth 8000 in
/-- C10: for every input text the TF-IDF vectorizer returns either a
vector of L2 norm exactly 1 or the all-zero vector (the `norm > 0` guard
makes the division unreachable at norm 0), and every coordinate outside
the corpus vocabulary is zero. -/
theorem c10_tfidf_norm_guard (t : String) (w : String) (hw : w ∉ vocabList) :
    (l2norm (textToTfidfVector t) = 1 ∨ textToTfidfVector t = fun _ => 0) ∧
    textToTfidfVector t w = 0 := by
  have hS0 : 0 ≤ ∑ s ∈ vocabFinset, (rawTfidfVector t s) ^ 2 :=
    Finset.sum_nonneg (fun _ _ => sq_nonneg _)
  by_cases hn : 0 < l2norm (rawTfidfVector t)
  · have hveq : textToTfidfVector t =
        fun w2 => rawTfidfVector t w2 / l2norm (rawTfidfVector t) := by
      unfold textToTfidfVector
      rw [if_pos hn]
    have hSpos : 0 < ∑ s ∈ vocabFinset, (rawTfidfVector t s) ^ 2 := by
      have h2 := hn
      unfold l2norm at h2
      exact Real.sqrt_pos.mp h2
    constructor
    · left
      simp only [hveq]
      unfold l2norm
      have hrw : ∑ s ∈ vocabFinset,
          (rawTfidfVector t s / Real.sqrt (∑ s2 ∈ vocabFinset, (rawTfidfVector t s2) ^ 2)) ^ 2 =
          (∑ s ∈ vocabFinset, (rawTfidfVector t s) ^ 2) /
            (Real.sqrt (∑ s2 ∈ vocabFinset, (rawTfidfVector t s2) ^ 2)) ^ 2 :=
        calc ∑ s ∈ vocabFinset,
            (rawTfidfVector t s / Real.sqrt (∑ s2 ∈ vocabFinset, (rawTfidfVector t s2) ^ 2)) ^ 2
            = ∑ s ∈ vocabFinset, (rawTfidfVector t s) ^ 2 /
                (Real.sqrt (∑ s2 ∈ vocabFinset, (rawTfidfVector t s2) ^ 2)) ^ 2 :=
              Finset.sum_congr rfl (fun s _ => div_pow _ _ _)
          _ = (∑ s ∈ vocabFinset, (rawTfidfVector t s) ^ 2) /
                (Real.sqrt (∑ s2 ∈ vocabFinset, (rawTfidfVector t s2) ^ 2)) ^ 2 :=
              (Finset.sum_div _ _ _).symm
      rw [hrw, Real.sq_sqrt hS0, div_self (ne_of_gt hSpos), Real.sqrt_one]
    · simp only [hveq]
      rw [rawTfidfVector_not_vocab t hw, zero_div]
  · have hveq : textToTfidfVector t = rawTfidfVector t := by
      unfold textToTfidfVector
      rw [if_neg hn]
    have hn0 : l2norm (rawTfidfVector t) = 0 :=
      le_antisymm (le_of_not_lt hn) (Real.sqrt_nonneg _)
    have hS : ∑ s ∈ vocabFinset, (rawTfidfVector t s) ^ 2 = 0 := by
      have h2 := hn0
      unfold l2norm at h2
      exact (Real.sqrt_eq_zero hS0).mp h2
    have hzero : ∀ s, rawTfidfVector t s = 0 := by
      intro s
      by_cases hs : s ∈ vocabList
      · have hmem : s ∈ vocabFinset := by
          unfold vocabFinset
          exact List.mem_toFinset.mpr hs
        have hsq := (Finset.sum_eq_zero_iff_of_nonneg
          (fun x _ => sq_nonneg (rawTfidfVector t x))).mp hS s hmem
        exact pow_eq_zero_iff two_ne_zero |>.mp hsq
      · exact rawTfidfVector_not_vocab t hs
    refine ⟨Or.inr ?_, ?_⟩
    · rw [hveq]
      funext s
      exact hzero s
    · rw [hveq]
      exact hzero w

set_option maxRecDepth 100000 in
/-- The token "zzz" does not occur in the example corpus. -/
lemma zzz_not_in_vocab : "zzz" ∉ vocabList := by
  rw [vocabList, List.mem_dedup]
  decide

/-- C10 witness at a concrete text and a concrete out-of-vocabulary
token. -/
theorem c10_tfidf_norm_guard_witness :
    "zzz" ∉ vocabList ∧
    ((l2norm (textToTfidfVector "book zzz please") = 1 ∨
        textToTfidfVector "book zzz please" = fun _ => 0) ∧
      textToTfidfVector "book zzz please" "zzz" = 0) :=
  ⟨zzz_not_in_vocab, c10_tfidf_norm_guard "book zzz please" "zzz" zzz_not_in_vocab⟩

/-! ## Evaluating the fast classifier on the query "douchebag"

"douchebag" is an abusive keyword that appears in no route example, so its
TF-IDF vector is identically zero and every ensemble score is rational;
this makes the query fully evaluable and exhibits the `max_specific`
demotion overriding the abusive route. -/

set_option maxRecDepth 100000 in
/-- The token "douchebag" does not occur in the example corpus. -/
lemma douchebag_not_in_vocab : "douchebag" ∉ vocabList := by
  rw [vocabList, List.mem_dedup]
  decide

/-- Tokenization of the query. -/
lemma douchebag_tokens : tokenize "douchebag" = ["douchebag"] := by decide

/-- The raw TF-IDF vector of "douchebag" is identically zero. -/
lemma douchebag_raw_zero (w : String) : rawTfidfVector "douchebag" w = 0 := by
  unfold rawTfidfVector
  by_cases hw : w ∈ vocabList
  · rw [if_pos hw]
    have hne : ¬ ("douchebag" = w) := by
      intro h
      exact douchebag_not_in_vocab (h ▸ hw)
    rw [douchebag_tokens]
    rw [List.count_eq_zero.mpr (by simpa using fun h => hne h.symm)]
    norm_num
  · rw [if_neg hw]

/-- Hence the TF-IDF cosine similarity of "douchebag" against every route
centroid is zero (the zero-norm guard fires). -/
lemma douchebag_tfidf_zero (r : RouteName) : tfidfSimilarityScore "douchebag" r = 0 := by
  have hnorm : l2norm (rawTfidfVector "douchebag") = 0 := by
    unfold l2norm
    rw [Finset.sum_eq_zero (fun s _ => by rw [douchebag_raw_zero s]; ring)]
    exact Real.sqrt_zero
  have hvec : textToTfidfVector "douchebag" = rawTfidfVector "douchebag" := by
    unfold textToTfidfVector
    rw [if_neg (by rw [hnorm]; exact lt_irrefl 0)]
  have hqnorm : l2norm (textToTfidfVector "douchebag") = 0 := by
    rw [hvec]; exact hnorm
  unfold tfidfSimilarityScore cosineSimilarity
  rw [if_pos (Or.inl hqnorm)]

/-- Pattern scores of "douchebag": only the abusive zero-tolerance
shortcut fires. -/
lemma douchebag_pattern (r : RouteName) :
    patternMatchingScore "douchebag" r = if r = RouteName.abusive then 1 else 0 := by
  cases r
  case abusive =>
    unfold patternMatchingScore
    rw [if_neg (by decide), if_pos (by decide)]
    decide
  case greeting =>
    unfold patternMatchingScore
    rw [if_neg (by decide), if_neg (by decide), if_neg (by decide),
      show (routeOf RouteName.greeting).patterns.countP
        (fun p => searchPat p "douchebag") = 0 from by decide]
    norm_num
    decide
  case agent_request =>
    unfold patternMatchingScore
    rw [if_neg (by decide), if_neg (by decide), if_neg (by decide),
      show (routeOf RouteName.agent_request).patterns.countP
        (fun p => searchPat p "douchebag") = 0 from by decide]
    norm_num
    decide
  case scheduler =>
    unfold patternMatchingScore
    rw [if_neg (by decide), if_neg (by decide), if_neg (by decide),
      show (routeOf RouteName.scheduler).patterns.countP
        (fun p => searchPat p "douchebag") = 0 from by decide]
    norm_num
    decide
  case conversation_close =>
    unfold patternMatchingScore
    rw [if_neg (by decide), if_neg (by decide), if_neg (by decide),
      show (routeOf RouteName.conversation_close).patterns.countP
        (fun p => searchPat p "douchebag") = 0 from by decide]
    norm_num
    decide
  case normal_qa =>
    unfold patternMatchingScore
    rw [if_neg (by decide), if_neg (by decide), if_neg (by decide),
      show (routeOf RouteName.normal_qa).patterns.countP
        (fun p => searchPat p "douchebag") = 0 from by decide]
    norm_num
    decide

/-- Keyword scores of "douchebag": only the abusive zero-tolerance
shortcut fires. -/
lemma douchebag_keyword (r : RouteName) :
    keywordMatchingScore "douchebag" r = if r = RouteName.abusive then 1 else 0 := by
  cases r
  case abusive =>
    unfold keywordMatchingScore
    rw [if_neg (by decide), if_pos (by decide)]
    decide
  case greeting =>
    unfold keywordMatchingScore
    rw [if_neg (by decide), if_neg (by decide), if_neg (by decide), if_neg (by decide),
      if_neg (by decide),
      show (routeOf RouteName.greeting).keywords.countP
        (keywordHit "douchebag") = 0 from by decide]
    norm_num
    decide
  case agent_request =>
    unfold keywordMatchingScore
    rw [if_neg (by decide), if_neg (by decide), if_neg (by decide), if_pos (by decide)]
    decide
  case scheduler =>
    unfold keywordMatchingScore
    rw [if_neg (by decide), if_neg (by decide), if_neg (by decide), if_neg (by decide),
      if_neg (by decide),
      show (routeOf RouteName.scheduler).keywords.countP
        (keywordHit "douchebag") = 0 from by decide]
    norm_num
    decide
  case conversation_close =>
    unfold keywordMatchingScore
    rw [if_neg (by decide), if_neg (by decide), if_neg (by decide), if_neg (by decide),
      if_neg (by decide),
      show (routeOf RouteName.conversation_close).keywords.countP
        (keywordHit "douchebag") = 0 from by decide]
    norm_num
    decide
  case normal_qa =>
    unfold keywordMatchingScore
    rw [if_neg (by decide), if_neg (by decide), if_neg (by decide), if_neg (by decide),
      if_neg (by decide),
      show (routeOf RouteName.normal_qa).keywords.countP
        (keywordHit "douchebag") = 0 from by decide]
    norm_num
    decide

/-- Phrase scores of "douchebag" all vanish. -/
lemma douchebag_phrase (r : RouteName) : phraseMatchingScore "douchebag" r = 0 := by
  cases r
  case greeting =>
    unfold phraseMatchingScore
    rw [if_neg (by decide), if_neg (by decide),
      show (routeOf RouteName.greeting).phrasePatterns.countP
        (fun ph => containsSub ph (lowerStr "douchebag")) = 0 from by decide]
    norm_num
  case agent_request =>
    unfold phraseMatchingScore
    rw [if_neg (by decide), if_neg (by decide),
      show (routeOf RouteName.agent_request).phrasePatterns.countP
        (fun ph => containsSub ph (lowerStr "douchebag")) = 0 from by decide]
    norm_num
  case scheduler =>
    unfold phraseMatchingScore
    rw [if_neg (by decide), if_neg (by decide),
      show (routeOf RouteName.scheduler).phrasePatterns.countP
        (fun ph => containsSub ph (lowerStr "douchebag")) = 0 from by decide]
    norm_num
  case conversation_close =>
    unfold phraseMatchingScore
    rw [if_neg (by decide), if_neg (by decide),
      show (routeOf RouteName.conversation_close).phrasePatterns.countP
        (fun ph => containsSub ph (lowerStr "douchebag")) = 0 from by decide]
    norm_num
  case abusive =>
    unfold phraseMatchingScore
    rw [if_neg (by decide), if_neg (by decide),
      show (routeOf RouteName.abusive).phrasePatterns.countP
        (fun ph => containsSub ph (lowerStr "douchebag")) = 0 from by decide]
    norm_num
  case normal_qa =>
    unfold phraseMatchingScore
    rw [if_neg (by decide), if_neg (by decide),
      show (routeOf RouteName.normal_qa).phrasePatterns.countP
        (fun ph => containsSub ph (lowerStr "douchebag")) = 0 from by decide]
    norm_num

/-- Bigram overlap of the one-token query "douchebag" is zero. -/
lemma douchebag_ngram (r : RouteName) : ngramOverlapScore "douchebag" r = 0 := by
  unfold ngramOverlapScore
  rw [if_pos (by decide)]

/-- Ensemble scores of "douchebag": 9/20 on the abusive route (0.25 from
the pattern shortcut plus 0.20 from the keyword shortcut), 0 elsewhere. -/
lemma douchebag_ensemble (r : RouteName) :
    ensembleScore "douchebag" r = if r = RouteName.abusive then (9 : ℝ)/20 else 0 := by
  unfold ensembleScore
  rw [douchebag_tfidf_zero, douchebag_pattern, douchebag_keyword, douchebag_phrase,
    douchebag_ngram]
  cases r <;>
    norm_num [show ¬ RouteName.greeting = RouteName.abusive from by decide,
      show ¬ RouteName.agent_request = RouteName.abusive from by decide,
      show ¬ RouteName.scheduler = RouteName.abusive from by decide,
      show ¬ RouteName.conversation_close = RouteName.abusive from by decide,
      show ¬ RouteName.normal_qa = RouteName.abusive from by decide]

/-- The fast classifier demotes "douchebag" to `(normal_qa, 0)`: the
abusive route wins the argmax at 9/20, but `max_specific` (which ignores
the abusive route) is 0 < 0.05, so the result is forced to `normal_qa`
with `normal_qa`'s zero score. -/
lemma douchebag_fastClassify : fastClassify "douchebag" = (RouteName.normal_qa, 0) := by
  have hpre : preprocessText "douchebag" = "douchebag" := by decide
  have hargmax : argmaxRoute (fun r => ensembleScore "douchebag" r) = RouteName.abusive := by
    unfold argmaxRoute routeOrder
    norm_num [List.foldl, douchebag_ensemble,
      show ¬ RouteName.agent_request = RouteName.abusive from by decide,
      show ¬ RouteName.greeting = RouteName.abusive from by decide,
      show ¬ RouteName.scheduler = RouteName.abusive from by decide,
      show ¬ RouteName.conversation_close = RouteName.abusive from by decide,
      show ¬ RouteName.normal_qa = RouteName.abusive from by decide]
  simp only [fastClassify]
  rw [if_neg (by decide), hpre, if_neg (by decide)]
  unfold fastDecision
  norm_num [hargmax, douchebag_ensemble, maxSpecificScore,
    show ¬ RouteName.abusive = RouteName.agent_request from by decide,
    show ¬ RouteName.abusive = RouteName.scheduler from by decide,
    show ¬ RouteName.greeting = RouteName.abusive from by decide,
    show ¬ RouteName.agent_request = RouteName.abusive from by decide,
    show ¬ RouteName.scheduler = RouteName.abusive from by decide,
    show ¬ RouteName.conversation_close = RouteName.abusive from by decide,
    show ¬ RouteName.normal_qa = RouteName.abusive from by decide,
    show ¬ RouteName.normal_qa = RouteName.scheduler from by decide]

/-- The fast confidence on "douchebag" is below the hybrid threshold. -/
lemma douchebag_conf_lt : (fastClassify "douchebag").2 < 0.70 := by
  rw [douchebag_fastClassify]
  norm_num

/-! ## C4 — abusive zero-tolerance -/

/-- C4 counterexample: "you suck" contains the profanity keyword "suck"
yet matches no abusive regex, so the pattern sub-score is not forced to
1.0; and "douchebag" contains the profanity keyword "douchebag" yet the
fast classifier returns `normal_qa` (the `max_specific` demotion ignores
the abusive route), so classification need not return `abusive`. -/
theorem c4_abusive_counterexample :
    ("suck" ∈ (routeOf RouteName.abusive).keywords ∧
      keywordHit "you suck" "suck" = true ∧
      patternMatchingScore "you suck" RouteName.abusive ≠ 1) ∧
    ("douchebag" ∈ (routeOf RouteName.abusive).keywords ∧
      keywordHit "douchebag" "douchebag" = true ∧
      (fastClassify "douchebag").1 ≠ RouteName.abusive) := by
  refine ⟨⟨by decide, by decide, ?_⟩, ⟨by decide, by decide, ?_⟩⟩
  · have h : patternMatchingScore "you suck" RouteName.abusive = 0 := by
      unfold patternMatchingScore
      rw [if_neg (by decide), if_neg (by decide), if_neg (by decide),
        show (routeOf RouteName.abusive).patterns.countP
          (fun p => searchPat p "you suck") = 0 from by decide]
      norm_num
    rw [h]
    norm_num
  · rw [douchebag_fastClassify]
    decide

/-- C4 (amended): for every query with at least one token, a profanity
keyword hit forces the abusive *keyword* sub-score to 1.0; the pattern and
phrase sub-scores are forced to 1.0 exactly when an abusive regex matches
resp. a canned abusive phrase occurs — a keyword hit alone does not force
them, and the final route may still be demoted away from `abusive`. -/
theorem c4_amended_abusive_forcing (t : String)
    (h1 : (tokenize t).isEmpty = false) :
    ((routeOf RouteName.abusive).keywords.any (keywordHit t) = true →
      keywordMatchingScore t RouteName.abusive = 1) ∧
    ((routeOf RouteName.abusive).patterns.any (fun p => searchPat p t) = true →
      patternMatchingScore t RouteName.abusive = 1) ∧
    ((routeOf RouteName.abusive).phrasePatterns.any
        (fun ph => containsSub ph (lowerStr t)) = true →
      phraseMatchingScore t RouteName.abusive = 1) := by
  refine ⟨?_, ?_, ?_⟩
  · intro hk
    unfold keywordMatchingScore
    rw [if_neg (by simp [h1]), if_pos ⟨rfl, hk⟩]
  · intro hp
    unfold patternMatchingScore
    rw [if_neg (by decide), if_pos ⟨rfl, hp⟩]
  · intro hph
    unfold phraseMatchingScore
    rw [if_neg (by decide), if_pos ⟨rfl, hph⟩]

/-- C4 amended-claim witness on the query "fuck you". -/
theorem c4_amended_abusive_forcing_witness :
    (tokenize "fuck you").isEmpty = false ∧
    (routeOf RouteName.abusive).keywords.any (keywordHit "fuck you") = true ∧
    keywordMatchingScore "fuck you" RouteName.abusive = 1 ∧
    (routeOf RouteName.abusive).patterns.any (fun p => searchPat p "fuck you") = true ∧
    patternMatchingScore "fuck you" RouteName.abusive = 1 ∧
    (routeOf RouteName.abusive).phrasePatterns.any
      (fun ph => containsSub ph (lowerStr "fuck you")) = true ∧
    phraseMatchingScore "fuck you" RouteName.abusive = 1 :=
  ⟨by decide, by decide,
   (c4_amended_abusive_forcing "fuck you" (by decide)).1 (by decide),
   by decide,
   (c4_amended_abusive_forcing "fuck you" (by decide)).2.1 (by decide),
   by decide,
   (c4_amended_abusive_forcing "fuck you" (by decide)).2.2 (by decide)⟩

/-! ## C6 — slow-classifier load failure -/

/-- Once the slow path is disabled, no later call attempts a load or
changes the coordinator state. -/
lemma hybrid_disabled_stable (load : Option (String → RouteName × ℝ))
    (s : HybridState) (q : String) (h : s.enableBert = false) :
    (hybridClassify load s q).state = s ∧
    (hybridClassify load s q).loadAttempted = false := by
  simp only [hybridClassify]
  by_cases h1 : trimStr q = ""
  · rw [if_pos h1]; exact ⟨rfl, rfl⟩
  rw [if_neg h1]
  by_cases h2 : normalizeQuery q ∈ hybridCloseList
  · rw [if_pos h2]; exact ⟨rfl, rfl⟩
  rw [if_neg h2]
  by_cases h3 : talkToBotGuard q = true
  · rw [if_pos h3]; exact ⟨rfl, rfl⟩
  rw [if_neg h3]
  by_cases h4 : contactGuard q = true
  · rw [if_pos h4]; exact ⟨rfl, rfl⟩
  rw [if_neg h4, if_pos (Or.inr h)]
  exact ⟨rfl, rfl⟩

/-- C6: if the slow classifier's lazy construction fails on the call that
first needs it (guards silent, fast confidence below 0.70, slow path
enabled but not yet loaded), the call still returns a value — the fast
result tagged `tfidf_fallback` — rather than propagating the failure; the
resulting state has the slow path permanently disabled, and every later
call leaves that state unchanged without attempting another load. -/
theorem c6_load_failure_permanent_fallback (s : HybridState) (q : String)
    (h1 : ¬ trimStr q = "") (h2 : normalizeQuery q ∉ hybridCloseList)
    (h3 : talkToBotGuard q = false) (h4 : contactGuard q = false)
    (h5 : (fastClassify q).2 < 0.70) (h6 : s.enableBert = true)
    (h7 : s.bertLoaded = false) (h8 : s.bertClassifier = none) :
    hybridClassify none s q =
      ⟨(fastClassify q).1, (fastClassify q).2, Method.tfidfFallback,
        { s with enableBert := false }, true⟩ ∧
    ({ s with enableBert := false } : HybridState).enableBert = false ∧
    (∀ (load2 : Option (String → RouteName × ℝ)) (q2 : String),
      (hybridClassify load2 { s with enableBert := false } q2).state =
        { s with enableBert := false } ∧
      (hybridClassify load2 { s with enableBert := false } q2).loadAttempted = false) := by
  have hens : ensureBertLoaded none s = { s with enableBert := false } := by
    unfold ensureBertLoaded
    rw [if_pos ⟨h7, h6⟩]
  refine ⟨?_, rfl, fun load2 q2 => hybrid_disabled_stable load2 _ q2 rfl⟩
  simp only [hybridClassify]
  rw [if_neg h1, if_neg h2, if_neg (by simp [h3]), if_neg (by simp [h4])]
  rw [if_neg (by
    rintro (hc | hc)
    · exact absurd hc (not_le.mpr h5)
    · rw [h6] at hc; exact Bool.noConfusion hc)]
  rw [hens]
  rw [show ({ s with enableBert := false } : HybridState).bertClassifier = none from h8]

/-- C6 witness: the evaluable low-confidence query "douchebag" against a
fresh coordinator whose slow-path construction fails. -/
theorem c6_load_failure_permanent_fallback_witness :
    (fastClassify "douchebag").2 < 0.70 ∧
    (hybridClassify none initState "douchebag" =
      ⟨(fastClassify "douchebag").1, (fastClassify "douchebag").2, Method.tfidfFallback,
        { initState with enableBert := false }, true⟩ ∧
    ({ initState with enableBert := false } : HybridState).enableBert = false ∧
    (∀ (load2 : Option (String → RouteName × ℝ)) (q2 : String),
      (hybridClassify load2 { initState with enableBert := false } q2).state =
        { initState with enableBert := false } ∧
      (hybridClassify load2 { initState with enableBert := false } q2).loadAttempted = false)) :=
  ⟨douchebag_conf_lt,
   c6_load_failure_permanent_fallback initState "douchebag"
     (by decide) (by decide) (by decide) (by decide)
     douchebag_conf_lt rfl rfl rfl⟩
